import Mathlib

/-
Verification of the client-side asynchronous task lifecycle engine of the
Dynamic-Agentic-System frontend.

The two pieces of code embedded here are:

1. `handleSendMessage` (ChatPanel): a query task driven by two racing
   timelines.  Synthetic `setTimeout` callbacks fire at 500, 1300 and
   2500 ms after start; the real network call (`processQuery`) settles at
   some arbitrary time `t`.  If it resolves, a further callback is
   scheduled 3500 ms after the resolution; if it rejects, the catch block
   runs at the rejection time.  All callbacks mutate one shared trace
   object and publish snapshots through `onProcessingTrace`,
   `onMessagesChange` and `setIsProcessing`.

2. `onDrop` (FileUpload): a sequential loop over the accepted files; for
   each file it creates an upload record, starts a 100 ms `setInterval`
   ticker advancing `progress` by 10 up to 90, awaits the real upload
   call, and on resolution clears the interval and marks the record
   completed with progress 100, while on rejection it marks the record
   errored (the catch block does not clear the interval).

The embedding is an event-system semantics: every scheduled callback and
every settlement continuation is an event with a firing time; the
single-threaded event loop applies events in time order, and the state at
time T is the fold of all events due at or before T.  A promise
continuation due at the same instant as a timer callback is ordered after
it.  Wall-clock identifiers and timestamps (`Date.now()`,
`Math.random()`) are omitted from the records since no claim mentions
them.
-/

/-- Status of one pipeline step, from the `ProcessingStep` interface. -/
inductive StepStatus
  | pending
  | processing
  | completed
  | error
deriving DecidableEq, Repr

/-- One step of the processing trace (`ProcessingStep`): name, status and
optional duration in milliseconds. -/
structure StepRec where
  name : String
  status : StepStatus
  duration : Option Nat
deriving DecidableEq, Repr

instance : Inhabited StepRec := ⟨⟨"", StepStatus.pending, none⟩⟩

/-- The fields of the `QueryResponse` payload that the engine reads. -/
structure QueryResponse where
  success : Bool
  response : String
  suggested_queries : List String
deriving DecidableEq, Repr

/-- The fields of a `Persona` that the engine reads. -/
structure Persona where
  name : String
  ptype : String
deriving DecidableEq, Repr

/-- A chat message as the engine produces it: its type tag, content, and
the metadata fields the engine writes (persona name and suggested
follow-up queries). -/
structure ChatMessage where
  mtype : String
  content : String
  persona : Option String
  suggestedQueries : Option (List String)
deriving DecidableEq, Repr

/-- The `ProcessingTrace` record. -/
structure Trace where
  query : String
  steps : List StepRec
  totalDuration : Nat
  finalResult : Option QueryResponse
deriving DecidableEq, Repr

/-- The externally observable state of one query task: the shared trace
object mutated by the callbacks, the last trace value published through
`onProcessingTrace` (`none` after `onProcessingTrace(null)`), the chat
message list, and the `isProcessing` flag. -/
structure QState where
  trace : Trace
  visibleTrace : Option Trace
  messages : List ChatMessage
  processing : Bool
deriving DecidableEq, Repr

/-- Replace the element at index `i` of a list by `f` of it, like the
in-place `trace.steps[i].field = v` mutations of the source. -/
def modifyStep : List StepRec → Nat → (StepRec → StepRec) → List StepRec
  | [], _, _ => []
  | s :: rest, 0, f => f s :: rest
  | s :: rest, n + 1, f => s :: modifyStep rest n f

/-- The scheduled callbacks of `handleSendMessage`: the three synthetic
step timeouts, the final timeout scheduled after the real call resolves,
and the catch continuation run when it rejects. -/
inductive QEvent
  | tick1
  | tick2
  | tick3
  | finalTick (r : QueryResponse)
  | rejected
deriving DecidableEq, Repr

/-- Outcome of the real `processQuery` call: the promise either fulfills
with a response payload or rejects. -/
inductive Outcome
  | fulfilled (r : QueryResponse)
  | rejected
deriving DecidableEq, Repr

/-- The user message appended before the call is issued. -/
def userMessage (input : String) : ChatMessage :=
  { mtype := "user", content := input, persona := none, suggestedQueries := none }

/-- The fixed fallback message built in the catch block. -/
def fallbackMessage : ChatMessage :=
  { mtype := "assistant"
    content := "Sorry, I encountered an error processing your query. Please try again."
    persona := none, suggestedQueries := none }

/-- The assistant message built in the final timeout callback. -/
def assistantMessage (p : Persona) (r : QueryResponse) : ChatMessage :=
  { mtype := "assistant", content := r.response
    persona := some p.name, suggestedQueries := some r.suggested_queries }

/-- Mark a step completed and stamp its duration, as in
`trace.steps[i].status = completed; trace.steps[i].duration = d`. -/
def stepCompleted (d : Nat) (st : StepRec) : StepRec :=
  { st with status := StepStatus.completed, duration := some d }

/-- Mark a step processing, as in `trace.steps[i].status = processing`. -/
def stepProcessing (st : StepRec) : StepRec :=
  { st with status := StepStatus.processing }

/-- Effect of one callback on the shared trace object: the three
synthetic timeouts mark step i completed with its fixed duration and
step i+1 processing; the final timeout marks step 4 completed with
duration 1000, stamps `totalDuration = 3500` and attaches the result;
the catch block does not touch the trace object. -/
def traceApply (tr : Trace) : QEvent → Trace
  | QEvent.tick1 =>
      { tr with steps := modifyStep (modifyStep tr.steps 0 (stepCompleted 500)) 1 stepProcessing }
  | QEvent.tick2 =>
      { tr with steps := modifyStep (modifyStep tr.steps 1 (stepCompleted 800)) 2 stepProcessing }
  | QEvent.tick3 =>
      { tr with steps := modifyStep (modifyStep tr.steps 2 (stepCompleted 1200)) 3 stepProcessing }
  | QEvent.finalTick r =>
      { tr with steps := modifyStep tr.steps 3 (stepCompleted 1000)
                totalDuration := 3500
                finalResult := some r }
  | QEvent.rejected => tr

/-- Effect of one callback on the whole observable state.  Synthetic
timeouts mutate the trace and publish a copy; the final timeout also
appends the assistant message and clears the processing flag; the catch
block appends the fallback message, clears the processing flag and
publishes `null` as the trace. -/
def applyQEvent (p : Persona) (s : QState) (e : QEvent) : QState :=
  match e with
  | QEvent.rejected =>
      { s with messages := s.messages ++ [fallbackMessage]
               processing := false
               visibleTrace := none }
  | QEvent.finalTick r =>
      { trace := traceApply s.trace e
        visibleTrace := some (traceApply s.trace e)
        messages := s.messages ++ [assistantMessage p r]
        processing := false }
  | _ =>
      { s with trace := traceApply s.trace e
               visibleTrace := some (traceApply s.trace e) }

/-- The trace constructed at the start of `handleSendMessage`: four named
steps, the first already `processing`, no durations, no result. -/
def initTrace (input : String) : Trace :=
  { query := input
    steps :=
      [ { name := "Query Analysis", status := StepStatus.processing, duration := none }
      , { name := "Document Retrieval", status := StepStatus.pending, duration := none }
      , { name := "Agent Processing", status := StepStatus.pending, duration := none }
      , { name := "Response Generation", status := StepStatus.pending, duration := none } ]
    totalDuration := 0
    finalResult := none }

/-- State right after the synchronous part of `handleSendMessage`: user
message appended, processing flag set, initial trace published. -/
def initQState (prior : List ChatMessage) (input : String) : QState :=
  { trace := initTrace input
    visibleTrace := some (initTrace input)
    messages := prior ++ [userMessage input]
    processing := true }

/-- The three synthetic timeouts, with their firing offsets. -/
def syntheticTicks : List (Nat × QEvent) :=
  [(500, QEvent.tick1), (1300, QEvent.tick2), (2500, QEvent.tick3)]

/-- All scheduled events of one query task, ordered by firing time, for a
real call settling at `t` ms after start.  On fulfillment the final
timeout is scheduled at the resolution time plus 3500 ms; on rejection
the catch continuation runs at `t`, ordered after a timer due at the
same instant. -/
def queryEvents (o : Outcome) (t : Nat) : List (Nat × QEvent) :=
  match o with
  | Outcome.fulfilled r => syntheticTicks ++ [(t + 3500, QEvent.finalTick r)]
  | Outcome.rejected =>
      if t < 500 then
        (t, QEvent.rejected) :: syntheticTicks
      else if t < 1300 then
        [(500, QEvent.tick1), (t, QEvent.rejected), (1300, QEvent.tick2), (2500, QEvent.tick3)]
      else if t < 2500 then
        [(500, QEvent.tick1), (1300, QEvent.tick2), (t, QEvent.rejected), (2500, QEvent.tick3)]
      else
        [(500, QEvent.tick1), (1300, QEvent.tick2), (2500, QEvent.tick3), (t, QEvent.rejected)]

/-- The observable state of the query task at time `T`: the fold of all
events due at or before `T` over the initial state. -/
def stateAt (prior : List ChatMessage) (input : String) (p : Persona)
    (o : Outcome) (t T : Nat) : QState :=
  ((queryEvents o t).filter fun e => e.1 ≤ T).foldl
    (fun s e => applyQEvent p s e.2) (initQState prior input)

/-- The observable state of the query task after every scheduled event
has fired. -/
def finalQState (prior : List ChatMessage) (input : String) (p : Persona)
    (o : Outcome) (t : Nat) : QState :=
  (queryEvents o t).foldl (fun s e => applyQEvent p s e.2) (initQState prior input)

/-- The catch block leaves the trace object unchanged. -/
@[simp]
theorem traceApply_rejected (tr : Trace) : traceApply tr QEvent.rejected = tr := rfl

/-- The trace component of the state evolves by `traceApply` alone. -/
theorem trace_applyQEvent (p : Persona) (s : QState) (e : QEvent) :
    (applyQEvent p s e).trace = traceApply s.trace e := by
  cases e <;> rfl

/-- The trace component of a fold of events is the fold of `traceApply`. -/
theorem trace_foldl (p : Persona) (evs : List (Nat × QEvent)) (s : QState) :
    (evs.foldl (fun s e => applyQEvent p s e.2) s).trace =
      evs.foldl (fun tr e => traceApply tr e.2) s.trace := by
  induction evs generalizing s with
  | nil => rfl
  | cons e rest ih => simp [List.foldl_cons, ih, trace_applyQEvent]

/-- The two completion callbacks: the final timeout and the catch block. -/
def isTerminalEvt : QEvent → Bool
  | QEvent.finalTick _ => true
  | QEvent.rejected => true
  | _ => false

/-- Only the two completion callbacks touch the processing flag, and they
set it to false. -/
theorem processing_applyQEvent (p : Persona) (s : QState) (e : QEvent) :
    (applyQEvent p s e).processing = (s.processing && !isTerminalEvt e) := by
  cases e <;> simp [applyQEvent, isTerminalEvt]

/-- Processing flag of a fold of events. -/
theorem processing_foldl (p : Persona) (evs : List (Nat × QEvent)) (s : QState) :
    (evs.foldl (fun s e => applyQEvent p s e.2) s).processing =
      (s.processing && !(evs.any fun e => isTerminalEvt e.2)) := by
  induction evs generalizing s with
  | nil => simp
  | cons e rest ih =>
      simp [List.foldl_cons, ih, processing_applyQEvent, Bool.and_assoc]

/-- The chat message appended by one callback, if any. -/
def messageOf (p : Persona) : QEvent → Option ChatMessage
  | QEvent.finalTick r => some (assistantMessage p r)
  | QEvent.rejected => some fallbackMessage
  | _ => none

/-- Each callback appends exactly the message `messageOf` gives. -/
theorem messages_applyQEvent (p : Persona) (s : QState) (e : QEvent) :
    (applyQEvent p s e).messages = s.messages ++ (messageOf p e).toList := by
  cases e <;> simp [applyQEvent, messageOf]

/-- Message list of a fold of events. -/
theorem messages_foldl (p : Persona) (evs : List (Nat × QEvent)) (s : QState) :
    (evs.foldl (fun s e => applyQEvent p s e.2) s).messages =
      s.messages ++ (evs.filterMap fun e => messageOf p e.2) := by
  induction evs generalizing s with
  | nil => simp
  | cons e rest ih =>
      cases h : messageOf p e.2 <;>
        simp [List.foldl_cons, ih, messages_applyQEvent, h]

/-- The events due at or before `T` when the real call fulfills at `t`:
the synthetic ticks due by `T` and, once `T` reaches `t + 3500`, the
final timeout. -/
theorem filter_queryEvents_fulfilled (r : QueryResponse) (t T : Nat) :
    ((queryEvents (Outcome.fulfilled r) t).filter fun e => e.1 ≤ T) =
      (if t + 3500 ≤ T then
        [(500, QEvent.tick1), (1300, QEvent.tick2), (2500, QEvent.tick3),
          (t + 3500, QEvent.finalTick r)]
      else if 2500 ≤ T then
        [(500, QEvent.tick1), (1300, QEvent.tick2), (2500, QEvent.tick3)]
      else if 1300 ≤ T then [(500, QEvent.tick1), (1300, QEvent.tick2)]
      else if 500 ≤ T then [(500, QEvent.tick1)]
      else []) := by
  by_cases h4 : t + 3500 ≤ T
  · have h1 : 500 ≤ T := by omega
    have h2 : 1300 ≤ T := by omega
    have h3 : 2500 ≤ T := by omega
    simp [queryEvents, syntheticTicks, List.filter, h1, h2, h3, h4]
  · by_cases h3 : 2500 ≤ T
    · have h1 : 500 ≤ T := by omega
      have h2 : 1300 ≤ T := by omega
      simp [queryEvents, syntheticTicks, List.filter, h1, h2, h3, h4]
    · by_cases h2 : 1300 ≤ T
      · have h1 : 500 ≤ T := by omega
        simp [queryEvents, syntheticTicks, List.filter, h1, h2, h3, h4]
      · by_cases h1 : 500 ≤ T <;>
          simp [queryEvents, syntheticTicks, List.filter, h1, h2, h3, h4]

/-- Any over a filtered list. -/
theorem any_filter_eq {α : Type} (l : List α) (p q : α → Bool) :
    (l.filter p).any q = l.any fun a => p a && q a := by
  induction l with
  | nil => rfl
  | cons a l ih => by_cases h : p a <;> simp [List.filter_cons, h, ih]

/-- FilterMap over a filtered list. -/
theorem filterMap_filter_eq {α β : Type} (l : List α) (p : α → Bool) (f : α → Option β) :
    (l.filter p).filterMap f = l.filterMap fun a => if p a then f a else none := by
  induction l with
  | nil => rfl
  | cons a l ih =>
      by_cases h : p a <;> simp [List.filter_cons, List.filterMap_cons, h, ih]

/-- Time of the unique terminal transition: the final timeout fires
3500 ms after the real call resolves; the catch block runs at the
rejection time. -/
def qTerminalTime (o : Outcome) (t : Nat) : Nat :=
  match o with
  | Outcome.fulfilled _ => t + 3500
  | Outcome.rejected => t

/-- The processing flag is true exactly before the terminal transition. -/
theorem processing_stateAt (prior : List ChatMessage) (input : String) (p : Persona)
    (o : Outcome) (t T : Nat) :
    (stateAt prior input p o t T).processing = decide (T < qTerminalTime o t) := by
  unfold stateAt
  rw [processing_foldl]
  cases o with
  | fulfilled r =>
      by_cases h : t + 3500 ≤ T
      · simp [queryEvents, syntheticTicks, any_filter_eq, isTerminalEvt, initQState,
          qTerminalTime, h, Nat.not_lt.mpr h]
      · simp [queryEvents, syntheticTicks, any_filter_eq, isTerminalEvt, initQState,
          qTerminalTime, h, Nat.not_le.mp h]
  | rejected =>
      by_cases h : t ≤ T
      · unfold queryEvents
        split_ifs <;>
          simp [syntheticTicks, any_filter_eq, isTerminalEvt, initQState,
            qTerminalTime, h, Nat.not_lt.mpr h]
      · unfold queryEvents
        split_ifs <;>
          simp [syntheticTicks, any_filter_eq, isTerminalEvt, initQState,
            qTerminalTime, h, Nat.not_le.mp h]

/-- Trace of the query state on rejection: the catch block leaves the
trace object alone, so the trace is the fold of the synthetic ticks due
by `T`. -/
theorem trace_stateAt_rejected (prior : List ChatMessage) (input : String) (p : Persona)
    (t T : Nat) :
    (stateAt prior input p Outcome.rejected t T).trace =
      (syntheticTicks.filter fun e => e.1 ≤ T).foldl
        (fun tr e => traceApply tr e.2) (initTrace input) := by
  unfold stateAt
  rw [trace_foldl]
  unfold queryEvents
  by_cases ht : t ≤ T <;>
  by_cases h1 : 500 ≤ T <;>
  by_cases h2 : 1300 ≤ T <;>
  by_cases h3 : 2500 ≤ T <;>
  split_ifs <;>
    first
      | omega
      | simp [syntheticTicks, List.filter, ht, h1, h2, h3, initQState]

/-- Trace snapshot after the 500 ms tick. -/
def traceAfter1 (input : String) : Trace :=
  { query := input
    steps :=
      [ { name := "Query Analysis", status := StepStatus.completed, duration := some 500 }
      , { name := "Document Retrieval", status := StepStatus.processing, duration := none }
      , { name := "Agent Processing", status := StepStatus.pending, duration := none }
      , { name := "Response Generation", status := StepStatus.pending, duration := none } ]
    totalDuration := 0
    finalResult := none }

/-- Trace snapshot after the 1300 ms tick. -/
def traceAfter2 (input : String) : Trace :=
  { query := input
    steps :=
      [ { name := "Query Analysis", status := StepStatus.completed, duration := some 500 }
      , { name := "Document Retrieval", status := StepStatus.completed, duration := some 800 }
      , { name := "Agent Processing", status := StepStatus.processing, duration := none }
      , { name := "Response Generation", status := StepStatus.pending, duration := none } ]
    totalDuration := 0
    finalResult := none }

/-- Trace snapshot after the 2500 ms tick. -/
def traceAfter3 (input : String) : Trace :=
  { query := input
    steps :=
      [ { name := "Query Analysis", status := StepStatus.completed, duration := some 500 }
      , { name := "Document Retrieval", status := StepStatus.completed, duration := some 800 }
      , { name := "Agent Processing", status := StepStatus.completed, duration := some 1200 }
      , { name := "Response Generation", status := StepStatus.processing, duration := none } ]
    totalDuration := 0
    finalResult := none }

/-- Trace snapshot after the final timeout, carrying the result. -/
def traceDone (input : String) (r : QueryResponse) : Trace :=
  { query := input
    steps :=
      [ { name := "Query Analysis", status := StepStatus.completed, duration := some 500 }
      , { name := "Document Retrieval", status := StepStatus.completed, duration := some 800 }
      , { name := "Agent Processing", status := StepStatus.completed, duration := some 1200 }
      , { name := "Response Generation", status := StepStatus.completed, duration := some 1000 } ]
    totalDuration := 3500
    finalResult := some r }

/-- Closed form of the trace at time `T` when the real call fulfills at
`t`: the steps advance on the synthetic schedule and the final timeout
fires at `t + 3500`. -/
theorem trace_stateAt_fulfilled (prior : List ChatMessage) (input : String) (p : Persona)
    (r : QueryResponse) (t T : Nat) :
    (stateAt prior input p (Outcome.fulfilled r) t T).trace =
      (if t + 3500 ≤ T then traceDone input r
      else if 2500 ≤ T then traceAfter3 input
      else if 1300 ≤ T then traceAfter2 input
      else if 500 ≤ T then traceAfter1 input
      else initTrace input) := by
  unfold stateAt
  rw [trace_foldl, filter_queryEvents_fulfilled]
  split_ifs <;>
    simp [initQState, traceApply, modifyStep, stepCompleted, stepProcessing,
      initTrace, traceAfter1, traceAfter2, traceAfter3, traceDone]

/-- Closed form of the trace at time `T` when the real call rejects at
`t`: only the synthetic ticks touch the trace object. -/
theorem trace_stateAt_rejected_closed (prior : List ChatMessage) (input : String)
    (p : Persona) (t T : Nat) :
    (stateAt prior input p Outcome.rejected t T).trace =
      (if 2500 ≤ T then traceAfter3 input
      else if 1300 ≤ T then traceAfter2 input
      else if 500 ≤ T then traceAfter1 input
      else initTrace input) := by
  rw [trace_stateAt_rejected]
  by_cases h1 : 500 ≤ T <;>
  by_cases h2 : 1300 ≤ T <;>
  by_cases h3 : 2500 ≤ T <;>
    first
      | omega
      | simp [syntheticTicks, List.filter, h1, h2, h3, traceApply, modifyStep,
          stepCompleted, stepProcessing, initTrace, traceAfter1, traceAfter2, traceAfter3]

/-- Messages at time `T` when the real call fulfills at `t`: the prior
messages, the user message, and, once the final timeout has fired, the
assistant message. -/
theorem messages_stateAt_fulfilled (prior : List ChatMessage) (input : String) (p : Persona)
    (r : QueryResponse) (t T : Nat) :
    (stateAt prior input p (Outcome.fulfilled r) t T).messages =
      prior ++ [userMessage input] ++
        (if t + 3500 ≤ T then [assistantMessage p r] else []) := by
  unfold stateAt
  rw [messages_foldl, filter_queryEvents_fulfilled]
  split_ifs <;> simp [initQState, messageOf]

/-- The events due at or before the rejection time `t` are the synthetic
ticks due by `t` followed by the catch continuation. -/
theorem filter_rejected_at_t (t : Nat) :
    ((queryEvents Outcome.rejected t).filter fun e => e.1 ≤ t) =
      (syntheticTicks.filter fun e => e.1 ≤ t) ++ [(t, QEvent.rejected)] := by
  unfold queryEvents
  split_ifs with ha hb hc
  · have h1 : ¬ (500 ≤ t) := by omega
    have h2 : ¬ (1300 ≤ t) := by omega
    have h3 : ¬ (2500 ≤ t) := by omega
    simp [syntheticTicks, List.filter, h1, h2, h3]
  · have h1 : 500 ≤ t := by omega
    have h2 : ¬ (1300 ≤ t) := by omega
    have h3 : ¬ (2500 ≤ t) := by omega
    simp [syntheticTicks, List.filter, h1, h2, h3]
  · have h1 : 500 ≤ t := by omega
    have h2 : 1300 ≤ t := by omega
    have h3 : ¬ (2500 ≤ t) := by omega
    simp [syntheticTicks, List.filter, h1, h2, h3]
  · have h1 : 500 ≤ t := by omega
    have h2 : 1300 ≤ t := by omega
    have h3 : 2500 ≤ t := by omega
    simp [syntheticTicks, List.filter, h1, h2, h3]

/-- The trace of the completed run on fulfillment. -/
theorem trace_finalQState_fulfilled (prior : List ChatMessage) (input : String)
    (p : Persona) (r : QueryResponse) (t : Nat) :
    (finalQState prior input p (Outcome.fulfilled r) t).trace = traceDone input r := by
  unfold finalQState
  rw [trace_foldl]
  simp [queryEvents, syntheticTicks, traceApply, modifyStep, stepCompleted,
    stepProcessing, initQState, initTrace, traceDone]

/-- The chat message produced by the completion path of each outcome. -/
def finalMessageOf (p : Persona) (o : Outcome) : ChatMessage :=
  match o with
  | Outcome.fulfilled r => assistantMessage p r
  | Outcome.rejected => fallbackMessage

/-- The result attached by the completion path of each outcome. -/
def finalResultOf (o : Outcome) : Option QueryResponse :=
  match o with
  | Outcome.fulfilled r => some r
  | Outcome.rejected => none

/-- C1: for every query task, the reported outcome matches the real
network call settlement, whatever the settlement time `t` relative to the
synthetic ticks: exactly one terminal callback is ever scheduled; the
processing flag is true from start exactly until the terminal callback
fires; the final chat message is the assistant message carrying the
response on fulfillment and the fixed fallback message on rejection; and
the result payload is attached on fulfillment only. -/
theorem claimC1_outcome_matches_real_call (prior : List ChatMessage) (input : String)
    (p : Persona) (o : Outcome) (t T : Nat) :
    ((queryEvents o t).countP fun e => isTerminalEvt e.2) = 1
    ∧ (stateAt prior input p o t T).processing = decide (T < qTerminalTime o t)
    ∧ (finalQState prior input p o t).messages =
        prior ++ [userMessage input] ++ [finalMessageOf p o]
    ∧ (finalQState prior input p o t).trace.finalResult = finalResultOf o := by
  refine ⟨?_, processing_stateAt prior input p o t T, ?_, ?_⟩
  · cases o with
    | fulfilled r =>
        simp [queryEvents, syntheticTicks, List.countP_cons, isTerminalEvt]
    | rejected =>
        unfold queryEvents
        split_ifs <;> simp [syntheticTicks, List.countP_cons, isTerminalEvt]
  · unfold finalQState
    rw [messages_foldl]
    cases o with
    | fulfilled r =>
        simp [queryEvents, syntheticTicks, messageOf, initQState, finalMessageOf]
    | rejected =>
        unfold queryEvents
        split_ifs <;> simp [syntheticTicks, messageOf, initQState, finalMessageOf]
  · cases o with
    | fulfilled r => rw [trace_finalQState_fulfilled]; rfl
    | rejected =>
        unfold finalQState
        rw [trace_foldl]
        unfold queryEvents
        split_ifs <;>
          simp [syntheticTicks, traceApply, modifyStep, stepCompleted, stepProcessing,
            initQState, initTrace, finalResultOf]

/-- C10: after a successful completion the recorded step durations are
the fixed constants 500, 800, 1200, 1000 and the stamped total duration
is exactly 3500, for every settlement time `t` of the real call. -/
theorem claimC10_fixed_durations (prior : List ChatMessage) (input : String)
    (p : Persona) (r : QueryResponse) (t : Nat) :
    ((finalQState prior input p (Outcome.fulfilled r) t).trace.steps.map
        fun st => st.duration) = [some 500, some 800, some 1200, some 1000]
    ∧ (finalQState prior input p (Outcome.fulfilled r) t).trace.totalDuration = 3500 := by
  rw [trace_finalQState_fulfilled prior input p r t]
  constructor <;> rfl

/-- Adjacent-pair check of the in-order property: a step may be
processing or completed only when its predecessor is completed. -/
def stepOk (a b : StepRec) : Bool :=
  !(decide (b.status = StepStatus.processing) || decide (b.status = StepStatus.completed))
    || decide (a.status = StepStatus.completed)

/-- The steps of a trace complete strictly in order: every step that is
processing or completed has a completed predecessor. -/
def stepsInOrder : List StepRec → Bool
  | [] => true
  | [_] => true
  | a :: b :: rest => stepOk a b && stepsInOrder (b :: rest)

/-- C6: in every reachable state of a query task, at every time `T` and
for every settlement time and outcome of the real call, the four steps
are in order: step i+1 is never processing or completed before step i is
completed. -/
theorem claimC6_steps_in_order (prior : List ChatMessage) (input : String) (p : Persona)
    (o : Outcome) (t T : Nat) :
    stepsInOrder (stateAt prior input p o t T).trace.steps = true := by
  cases o with
  | fulfilled r =>
      rw [trace_stateAt_fulfilled]
      split_ifs <;>
        simp [stepsInOrder, stepOk, traceDone, traceAfter3, traceAfter2, traceAfter1, initTrace]
  | rejected =>
      rw [trace_stateAt_rejected_closed]
      split_ifs <;>
        simp [stepsInOrder, stepOk, traceAfter3, traceAfter2, traceAfter1, initTrace]

/-- Query, persona and response of scenario 1 of the specification. -/
def sampleQuery : String := "What is the revenue trend?"

/-- Persona of scenario 1 of the specification. -/
def samplePersona : Persona := { name := "Financial Analyst", ptype := "financial" }

/-- Response payload of scenario 1 of the specification. -/
def sampleResponse : QueryResponse :=
  { success := true, response := "Revenue grew 12%.", suggested_queries := ["Why did it grow?"] }

/-- C2 counterexample: for a real call resolving at 3000 ms, the fourth
step is still processing at 3500 ms (and still at 6499 ms) and the chat
message has not been emitted at 3500 ms; step 4 completes only at
6500 ms, because the final timeout is scheduled 3500 ms after the call
resolves, not at the final tick of the synthetic schedule measured from
start. -/
theorem claimC2_counterexample :
    ((stateAt [] sampleQuery samplePersona (Outcome.fulfilled sampleResponse) 3000
        3500).trace.steps.getD 3 default).status = StepStatus.processing
    ∧ (stateAt [] sampleQuery samplePersona (Outcome.fulfilled sampleResponse) 3000
        3500).messages = [userMessage sampleQuery]
    ∧ ((stateAt [] sampleQuery samplePersona (Outcome.fulfilled sampleResponse) 3000
        6499).trace.steps.getD 3 default).status = StepStatus.processing
    ∧ ((stateAt [] sampleQuery samplePersona (Outcome.fulfilled sampleResponse) 3000
        6500).trace.steps.getD 3 default).status = StepStatus.completed := by
  refine ⟨rfl, rfl, rfl, rfl⟩

/-- C2 amended: on fulfillment at time `t`, step 4 is marked completed,
the total duration stamped, the result attached and the derived chat
message emitted all exactly when the final timeout fires, which is
scheduled 3500 ms after the real call resolves (time `t + 3500`), not at
the 3500 ms mark of the synthetic schedule; the first three transitions
stay at 500, 1300 and 2500 ms. -/
theorem claimC2_amended (prior : List ChatMessage) (input : String) (p : Persona)
    (r : QueryResponse) (t T : Nat) :
    ((stateAt prior input p (Outcome.fulfilled r) t T).trace.steps.getD 3 default).status =
      (if t + 3500 ≤ T then StepStatus.completed
       else if 2500 ≤ T then StepStatus.processing
       else StepStatus.pending)
    ∧ (stateAt prior input p (Outcome.fulfilled r) t T).trace.finalResult =
        (if t + 3500 ≤ T then some r else none)
    ∧ (stateAt prior input p (Outcome.fulfilled r) t T).trace.totalDuration =
        (if t + 3500 ≤ T then 3500 else 0)
    ∧ (stateAt prior input p (Outcome.fulfilled r) t T).messages =
        prior ++ [userMessage input] ++
          (if t + 3500 ≤ T then [assistantMessage p r] else []) := by
  refine ⟨?_, ?_, ?_, messages_stateAt_fulfilled prior input p r t T⟩ <;>
  · rw [trace_stateAt_fulfilled]
    split_ifs <;>
      first
        | omega
        | simp [traceDone, traceAfter3, traceAfter2, traceAfter1, initTrace]

/-- C5 counterexample: scenario 2 of the specification, a rejection at
1000 ms.  At 1000 ms the trace is indeed cleared to none, but at 1300 ms
the still-pending synthetic tick republishes a partial pipeline (steps 1
and 2 completed, step 3 processing, step 4 pending), so the trace is not
kept at none and a partial pipeline is shown after the error terminal
transition. -/
theorem claimC5_counterexample :
    (stateAt [] sampleQuery samplePersona Outcome.rejected 1000 1000).visibleTrace = none
    ∧ (stateAt [] sampleQuery samplePersona Outcome.rejected 1000 1300).visibleTrace =
        some (traceAfter2 sampleQuery) := by
  refine ⟨rfl, rfl⟩

/-- C5 amended: when the real call rejects at time `t`, the catch block
at that instant sets the error-terminal state: it emits the fixed
fallback chat message, clears the externally visible trace to none and
sets the processing flag to false; however synthetic ticks scheduled
before the rejection still fire afterwards and republish a partial
pipeline, so the trace is guaranteed to be none only at the rejection
instant, not for all later times. -/
theorem claimC5_amended (prior : List ChatMessage) (input : String) (p : Persona) (t : Nat) :
    (stateAt prior input p Outcome.rejected t t).visibleTrace = none
    ∧ (stateAt prior input p Outcome.rejected t t).processing = false
    ∧ (stateAt prior input p Outcome.rejected t t).messages =
        prior ++ [userMessage input, fallbackMessage] := by
  unfold stateAt
  rw [filter_rejected_at_t, List.foldl_append]
  refine ⟨rfl, rfl, ?_⟩
  show (applyQEvent p _ QEvent.rejected).messages = _
  rw [messages_applyQEvent, messages_foldl, filterMap_filter_eq]
  simp [syntheticTicks, messageOf, initQState]

/-- The outer component state read and written by `handleSendMessage`:
the chat message list, the `isProcessing` flag and the published
processing trace. -/
structure OuterState where
  messages : List ChatMessage
  isProcessing : Bool
  processingTrace : Option Trace
deriving DecidableEq, Repr

/-- The `handleSendMessage` entry point: the guard returns immediately
when the trimmed input is empty, no persona is selected, or a query is
already processing; otherwise it runs the query task whose observable
state at time `T` is `stateAt`, for a real call with outcome `o`
settling at time `t`. -/
def handleSendMessage (input : String) (persona : Option Persona) (st : OuterState)
    (o : Outcome) (t T : Nat) : OuterState :=
  if input.trim = "" ∨ persona = none ∨ st.isProcessing then st
  else
    match persona with
    | none => st
    | some p =>
        let q := stateAt st.messages input p o t T
        { messages := q.messages, isProcessing := q.processing, processingTrace := q.visibleTrace }

/-- C9: invoking query submission with an empty or whitespace-only
input, with no persona selected, or while a query is already processing
is a silent no-op: the outer state is returned unchanged, so no message
is appended, no trace is created, and the processing flag is untouched;
in particular a second submission while one is in flight is rejected, so
at most one query task is ever in flight. -/
theorem claimC9_guard_no_op (input : String) (persona : Option Persona) (st : OuterState)
    (o : Outcome) (t T : Nat)
    (h : input.trim = "" ∨ persona = none ∨ st.isProcessing = true) :
    handleSendMessage input persona st o t T = st := by
  rcases h with h | h | h <;> simp [handleSendMessage, h]

/-- Witness for C9 at a concrete input: submitting with no persona
selected leaves the state unchanged. -/
theorem claimC9_guard_no_op_witness :
    handleSendMessage "hello" none
        { messages := [], isProcessing := false, processingTrace := none }
        Outcome.rejected 0 0 =
      { messages := [], isProcessing := false, processingTrace := none } :=
  claimC9_guard_no_op "hello" none
    { messages := [], isProcessing := false, processingTrace := none }
    Outcome.rejected 0 0 (Or.inr (Or.inl rfl))

/-- Upload status, from the `FileUpload` interface. -/
inductive UploadStatus
  | uploading
  | processing
  | completed
  | error
deriving DecidableEq, Repr

/-- The facts about a dropped file the engine reads: name, size in
bytes, media type. -/
structure FileInfo where
  name : String
  size : Nat
  ftype : String
deriving DecidableEq, Repr

/-- An upload record as `onDrop` creates and mutates it.  The random id
of the source is omitted; records are tracked positionally. -/
structure FileUpload where
  name : String
  size : Nat
  ftype : String
  status : UploadStatus
  progress : Nat
  error : Option String
deriving DecidableEq, Repr

/-- The record `onDrop` creates for a file before starting its call:
status uploading, progress 0. -/
def mkUpload (f : FileInfo) : FileUpload :=
  { name := f.name, size := f.size, ftype := f.ftype
    status := UploadStatus.uploading, progress := 0, error := none }

/-- Outcome of the real `onFileUpload` call for one file. -/
inductive UploadOutcome
  | success
  | failure (msg : String)
deriving DecidableEq, Repr

/-- One upload task together with its interval handle: `intervalActive`
is false once `clearInterval` has run. -/
structure UpTaskState where
  upl : FileUpload
  intervalActive : Bool
deriving DecidableEq, Repr

/-- The scheduled callbacks of one upload task: a 100 ms interval tick
and the settlement continuation of the real call. -/
inductive UpTaskEvent
  | tick
  | settle (o : UploadOutcome)
deriving DecidableEq, Repr

/-- Effect of one callback on an upload task.  A tick advances progress
by 10 capped at 90, but only while the interval has not been cleared.
On fulfillment the continuation clears the interval and sets status
completed with progress 100.  On rejection the catch block sets status
error with the message; it does not clear the interval. -/
def applyUploadEvent (s : UpTaskState) : UpTaskEvent → UpTaskState
  | UpTaskEvent.tick =>
      if s.intervalActive then
        { s with upl := { s.upl with progress := min (s.upl.progress + 10) 90 } }
      else s
  | UpTaskEvent.settle UploadOutcome.success =>
      { upl := { s.upl with status := UploadStatus.completed, progress := 100 }
        intervalActive := false }
  | UpTaskEvent.settle (UploadOutcome.failure m) =>
      { s with upl := { s.upl with status := UploadStatus.error, error := some m } }

/-- The event sequence of one upload task whose real call settles after
`k` interval ticks, followed by `j` further interval firings. -/
def uploadRunEvents (k : Nat) (o : UploadOutcome) (j : Nat) : List UpTaskEvent :=
  List.replicate k UpTaskEvent.tick ++ [UpTaskEvent.settle o] ++ List.replicate j UpTaskEvent.tick

/-- The state of an upload task for file `f` after the first `n` events
of its run. -/
def uploadStateAfter (f : FileInfo) (k : Nat) (o : UploadOutcome) (j n : Nat) : UpTaskState :=
  ((uploadRunEvents k o j).take n).foldl applyUploadEvent
    { upl := mkUpload f, intervalActive := true }

/-- A concrete dropped file used in counterexamples. -/
def sampleFile : FileInfo := { name := "report.csv", size := 2048, ftype := "text/csv" }

/-- C3 failing input: a single upload whose real call rejects with
message "Upload failed" before any interval tick.  After the rejection
the task is terminal (status error, progress 0), yet the next interval
firing still mutates the task: progress moves from 0 to 10 and the
interval is still active, because the catch block of `onDrop` does not
call `clearInterval`. -/
theorem claimC3_ticker_runs_after_error :
    (uploadStateAfter sampleFile 0 (UploadOutcome.failure "Upload failed") 1 1).upl.status =
      UploadStatus.error
    ∧ (uploadStateAfter sampleFile 0 (UploadOutcome.failure "Upload failed") 1 1).upl.progress = 0
    ∧ (uploadStateAfter sampleFile 0 (UploadOutcome.failure "Upload failed") 1 2).upl.progress = 10
    ∧ (uploadStateAfter sampleFile 0 (UploadOutcome.failure "Upload failed") 1 2).upl.status =
        UploadStatus.error
    ∧ (uploadStateAfter sampleFile 0 (UploadOutcome.failure "Upload failed") 1 2).intervalActive =
        true := by
  refine ⟨rfl, rfl, rfl, rfl, rfl⟩

/-- Invariant of an upload task state: while the interval is active the
progress is at most 90, and progress never exceeds 100. -/
def UpInv (s : UpTaskState) : Prop :=
  (s.intervalActive = true → s.upl.progress ≤ 90) ∧ s.upl.progress ≤ 100

/-- One upload callback preserves the invariant and never decreases
progress. -/
theorem applyUploadEvent_inv (s : UpTaskState) (e : UpTaskEvent) (h : UpInv s) :
    UpInv (applyUploadEvent s e) ∧ s.upl.progress ≤ (applyUploadEvent s e).upl.progress := by
  obtain ⟨hact, h100⟩ := h
  cases e with
  | tick =>
      by_cases ha : s.intervalActive
      · have h90 := hact ha
        have hred : applyUploadEvent s UpTaskEvent.tick =
            { s with upl := { s.upl with progress := min (s.upl.progress + 10) 90 } } := by
          simp [applyUploadEvent, ha]
        rw [hred]
        refine ⟨⟨fun _ => ?_, ?_⟩, ?_⟩ <;> (simp; try omega)
      · have hred : applyUploadEvent s UpTaskEvent.tick = s := by
          simp [applyUploadEvent, ha]
        rw [hred]
        exact ⟨⟨hact, h100⟩, le_refl _⟩
  | settle o =>
      cases o with
      | success => exact ⟨⟨fun hc => Bool.noConfusion hc, Nat.le_refl _⟩, h100⟩
      | failure m => exact ⟨⟨hact, h100⟩, Nat.le_refl _⟩

/-- A fold of upload callbacks preserves the invariant. -/
theorem uploadFold_inv (evs : List UpTaskEvent) (s : UpTaskState) (h : UpInv s) :
    UpInv (evs.foldl applyUploadEvent s) := by
  induction evs generalizing s with
  | nil => exact h
  | cons e rest ih => exact ih _ (applyUploadEvent_inv s e h).1

/-- The initial upload task state satisfies the invariant. -/
theorem uploadInit_inv (f : FileInfo) :
    UpInv { upl := mkUpload f, intervalActive := true } :=
  ⟨fun _ => Nat.zero_le _, Nat.zero_le _⟩

/-- A tick never changes whether the interval is active. -/
theorem tick_preserves_active (s : UpTaskState) :
    (applyUploadEvent s UpTaskEvent.tick).intervalActive = s.intervalActive := by
  by_cases ha : s.intervalActive <;> simp [applyUploadEvent, ha]

/-- Folding interval ticks alone keeps the invariant and the interval
active. -/
theorem foldl_ticks_active (m : Nat) (s : UpTaskState) (h : UpInv s)
    (ha : s.intervalActive = true) :
    UpInv ((List.replicate m UpTaskEvent.tick).foldl applyUploadEvent s)
    ∧ ((List.replicate m UpTaskEvent.tick).foldl applyUploadEvent s).intervalActive = true := by
  induction m generalizing s with
  | zero => exact ⟨h, ha⟩
  | succ m ih =>
      rw [List.replicate_succ, List.foldl_cons]
      exact ih _ (applyUploadEvent_inv s UpTaskEvent.tick h).1
        ((tick_preserves_active s).trans ha)

/-- C7: for every upload task, for every number `k` of interval ticks
before the real call settles, every outcome `o` and every number `j` of
interval firings afterwards, progress never decreases from one event to
the next, stays at most 100, and while the real call is outstanding
(the first `k` events, captured by clamping the position to `k`) it
never exceeds 90. -/
theorem claimC7_progress_monotone_bounded (f : FileInfo) (k j n : Nat) (o : UploadOutcome) :
    (uploadStateAfter f k o j n).upl.progress ≤ (uploadStateAfter f k o j (n + 1)).upl.progress
    ∧ (uploadStateAfter f k o j n).upl.progress ≤ 100
    ∧ (uploadStateAfter f k o j (min n k)).upl.progress ≤ 90 := by
  refine ⟨?_, ?_, ?_⟩
  · unfold uploadStateAfter
    rw [List.take_succ, List.foldl_append]
    cases hg : (uploadRunEvents k o j)[n]? with
    | none => simp
    | some e =>
        simp only [Option.toList, List.foldl_cons, List.foldl_nil]
        exact (applyUploadEvent_inv _ e
          (uploadFold_inv _ _ (uploadInit_inv f))).2
  · exact (uploadFold_inv _ _ (uploadInit_inv f)).2
  · have htake : (uploadRunEvents k o j).take (min n k) =
        List.replicate (min n k) UpTaskEvent.tick := by
      unfold uploadRunEvents
      rw [List.append_assoc, List.take_append_of_le_length
        (by rw [List.length_replicate]; exact Nat.min_le_right n k), List.take_replicate]
      congr 1
      omega
    unfold uploadStateAfter
    rw [htake]
    obtain ⟨⟨h90, _⟩, hact⟩ :=
      foldl_ticks_active (min n k) _ (uploadInit_inv f) rfl
    exact h90 hact

/-- One entry of the drop batch: the file together with the behaviour of
its real upload call (ticks elapsed before settlement, and outcome). -/
structure UploadJob where
  file : FileInfo
  preTicks : Nat
  outcome : UploadOutcome
deriving DecidableEq, Repr

/-- The record of one upload task at the moment its real call settles,
obtained by running its event sequence. -/
def runTask (f : FileInfo) (k : Nat) (o : UploadOutcome) : FileUpload :=
  ((uploadRunEvents k o 0).foldl applyUploadEvent
    { upl := mkUpload f, intervalActive := true }).upl

/-- Observable milestones of the `onDrop` loop, tagged with the position
of the file in the drop batch: the task record is created and appended,
the real call is started, the real call settles. -/
inductive UpEvent
  | created (i : Nat) (u : FileUpload)
  | callBegun (i : Nat)
  | settled (i : Nat)
deriving DecidableEq, Repr

/-- One iteration of the `onDrop` loop body for the file at position
`i`: append the fresh record, then run the task to settlement; the log
records creation, call start and settlement in program order. -/
def processFile (i : Nat) (j : UploadJob) (acc : List FileUpload × List UpEvent) :
    List FileUpload × List UpEvent :=
  (acc.1 ++ [runTask j.file j.preTicks j.outcome],
   acc.2 ++ [UpEvent.created i (mkUpload j.file), UpEvent.callBegun i, UpEvent.settled i])

/-- The `for ... of` loop of `onDrop`: because the loop body awaits the
real call, the next iteration starts only after the previous call has
settled. -/
def onDropGo (i : Nat) : List UploadJob → List FileUpload × List UpEvent →
    List FileUpload × List UpEvent
  | [], acc => acc
  | j :: rest, acc => onDropGo (i + 1) rest (processFile i j acc)

/-- The `onDrop` callback applied to the accepted files of one drop. -/
def onDrop (jobs : List UploadJob) : List FileUpload × List UpEvent :=
  onDropGo 0 jobs ([], [])

/-- The fully serialized event log: for each file in batch order, its
creation, call start and settlement, before anything of the next file.
This is the statement of the amended claim C4 in list form. -/
def serializedLog : Nat → List UploadJob → List UpEvent
  | _, [] => []
  | i, j :: rest =>
      UpEvent.created i (mkUpload j.file) :: UpEvent.callBegun i :: UpEvent.settled i ::
        serializedLog (i + 1) rest

/-- The log of the loop from position `i` extends the accumulator with
the serialized log. -/
theorem onDropGo_log (i : Nat) (jobs : List UploadJob)
    (acc : List FileUpload × List UpEvent) :
    (onDropGo i jobs acc).2 = acc.2 ++ serializedLog i jobs := by
  induction jobs generalizing i acc with
  | nil => simp [onDropGo, serializedLog]
  | cons j rest ih => simp [onDropGo, processFile, serializedLog, ih]

/-- The event log of a whole drop is fully serialized. -/
theorem onDrop_log (jobs : List UploadJob) : (onDrop jobs).2 = serializedLog 0 jobs := by
  simpa using onDropGo_log 0 jobs ([], [])

/-- Two CSV files of scenario 3 of the specification. -/
def fileA : FileInfo := { name := "a.csv", size := 2097152, ftype := "text/csv" }

/-- Second CSV file of scenario 3 of the specification. -/
def fileB : FileInfo := { name := "b.csv", size := 3145728, ftype := "text/csv" }

/-- Drop job for the first file: call succeeds after 2 ticks. -/
def jobA : UploadJob := { file := fileA, preTicks := 2, outcome := UploadOutcome.success }

/-- Drop job for the second file: call succeeds after 3 ticks. -/
def jobB : UploadJob := { file := fileB, preTicks := 3, outcome := UploadOutcome.success }

/-- C4 counterexample: dropping two accepted CSV files together, the
second task is created only after the first upload call has settled —
the settlement of file 0 precedes the creation of task 1 in the event
log — because the loop body awaits each upload before the next
iteration.  So task creation does wait on the previous upload, refuting
the no-serialization claim. -/
theorem claimC4_counterexample :
    ((onDrop [jobA, jobB]).2.findIdx fun e => decide (e = UpEvent.settled 0)) <
      ((onDrop [jobA, jobB]).2.findIdx fun e =>
        decide (e = UpEvent.created 1 (mkUpload fileB))) := by
  decide

/-- C4 amended: files dropped together are processed strictly
sequentially in batch order: each accepted file has its task created,
its real call started and its call settled before the next file's task
is even created, as the fully serialized event log shows. -/
theorem claimC4_amended_sequential (jobs : List UploadJob) :
    (onDrop jobs).2 = serializedLog 0 jobs :=
  onDrop_log jobs

/-- Validation applied before `onDrop` is invoked.  Modelled from the
spec: the react-dropzone accept and maxSize options (library code, not
part of the repository sources) reject a file whose media type is not in
the accepted set or whose size exceeds the configured maximum, and
rejected files are never passed to `onDrop`. -/
def fileAccepted (acceptedTypes : List String) (maxSize : Nat) (f : FileInfo) : Bool :=
  acceptedTypes.contains f.ftype && decide (f.size ≤ maxSize)

/-- A whole drop: the dropzone filters the batch, `onDrop` receives only
the accepted files. -/
def dropFiles (acceptedTypes : List String) (maxSize : Nat) (jobs : List UploadJob) :
    List FileUpload × List UpEvent :=
  onDrop (jobs.filter fun j => fileAccepted acceptedTypes maxSize j.file)

/-- The task records created during a drop, in creation order. -/
def createdRecords (log : List UpEvent) : List FileUpload :=
  log.filterMap fun e =>
    match e with
    | UpEvent.created _ u => some u
    | _ => none

/-- The creations in a serialized log are exactly the fresh records of
the batch. -/
theorem createdRecords_serializedLog (i : Nat) (jobs : List UploadJob) :
    createdRecords (serializedLog i jobs) = jobs.map fun j => mkUpload j.file := by
  induction jobs generalizing i with
  | nil => rfl
  | cons j rest ih =>
      simp only [serializedLog, createdRecords, List.filterMap_cons, List.map_cons]
      simp only [List.cons.injEq, true_and]
      exact ih (i + 1)

/-- C8: a drop creates exactly one task per accepted file, in order,
each starting with status uploading and progress 0; a file rejected for
its media type or size is filtered out before `onDrop` and so never
produces a task record. -/
theorem claimC8_rejected_never_creates_task (acceptedTypes : List String) (maxSize : Nat)
    (jobs : List UploadJob) :
    createdRecords (dropFiles acceptedTypes maxSize jobs).2 =
      ((jobs.filter fun j => fileAccepted acceptedTypes maxSize j.file).map
        fun j => mkUpload j.file)
    ∧ ((createdRecords (dropFiles acceptedTypes maxSize jobs).2).all fun u =>
        decide (u.status = UploadStatus.uploading) && decide (u.progress = 0)) = true := by
  have h : createdRecords (dropFiles acceptedTypes maxSize jobs).2 =
      ((jobs.filter fun j => fileAccepted acceptedTypes maxSize j.file).map
        fun j => mkUpload j.file) := by
    unfold dropFiles
    rw [onDrop_log, createdRecords_serializedLog]
  refine ⟨h, ?_⟩
  rw [h]
  simp only [List.all_eq_true, List.mem_map]
  rintro u ⟨j, hj, rfl⟩
  simp [mkUpload]
